import Mathlib

/-!
Shallow embedding of `src/api/controllers/user.controller.ts` from the
day-planner backend (sammy6378/Learning-nextjs).

Each Express handler becomes a pure Lean function from its inputs (request
body fields, cookies, and an environment holding the database, the redis
session cache, the Sanity CMS content, the JWT secrets, the clock and the
outcomes of the external mail transport) to an explicit result: the HTTP
outcome (`res.status(..).json(..)` or `next(new ErrorHandler(msg, code))`)
together with the side effects the handler performed (cookies set, emails
sent, database and CMS writes).

JWTs are modelled as records carrying their payload, the secret they were
signed with, the issue time and the lifetime in seconds; `jwt.verify`
succeeds exactly when the secret matches and the token has not expired,
mirroring the jsonwebtoken library used by the source.
-/

/-- The request-body shape of `registerUser` (interface `IRegisterUser`). -/
structure IRegisterUser where
  name : String
  email : String
  password : String
deriving Repr, DecidableEq

/-- A persisted user record (`userModel` document). -/
structure IUser where
  _id : String
  name : String
  email : String
  password : String
deriving Repr, DecidableEq

/-- JWT payloads signed by this controller: the activation payload
`{user, activationCode}` of `createActivationToken`, and the session payload
`{id}` signed by `UpdateAccessToken` (and by `sendToken`). -/
inductive Payload where
  | activation (user : IRegisterUser) (activationCode : String)
  | session (id : String)
deriving Repr, DecidableEq

/-- A signed JWT: its payload, the secret it was signed with, the issue
time and the lifetime in seconds.  A JWT payload is base64-encoded, not
encrypted, so any holder of the token can read `payload`. -/
structure Jwt where
  payload : Payload
  secret : String
  issuedAt : Nat
  expiresInSec : Nat
deriving Repr, DecidableEq

/-- `jwt.sign(payload, secret, {expiresIn})` at clock time `now`. -/
def jwtSign (p : Payload) (secret : String) (now expiresInSec : Nat) : Jwt :=
  ⟨p, secret, now, expiresInSec⟩

/-- `jwt.verify(token, secret)` at clock time `now`: throws
`invalid signature` when the secret differs, `jwt expired` once `now`
reaches the expiry time, and returns the payload otherwise. -/
def jwtVerify (t : Jwt) (secret : String) (now : Nat) : Except String Payload :=
  if t.secret == secret then
    if t.issuedAt + t.expiresInSec ≤ now then .error "jwt expired"
    else .ok t.payload
  else .error "invalid signature"

/-- A JS falsy test on an optional request-body string: `!x` is true when
the field is absent or the empty string. -/
def strFalsy : Option String → Bool
  | none => true
  | some s => s.isEmpty

/-- `userModel.findOne({email})`. -/
def findOneByEmail (db : List IUser) (email : String) : Option IUser :=
  db.find? (fun u => u.email == email)

/-- `userModel.findById(id)`. -/
def findById (db : List IUser) (id : String) : Option IUser :=
  db.find? (fun u => u._id == id)

/-- `userModel.create({name, email, password})`: appends a fresh record
(with a fresh `_id`) and returns it together with the new database state.
No uniqueness condition on `email` is checked here. -/
def userCreate (db : List IUser) (name email password : String) : IUser × List IUser :=
  let u : IUser := ⟨"oid" ++ toString db.length, name, email, password⟩
  (u, db ++ [u])

/-- The arguments of one `sendMail` call. -/
structure MailArgs where
  template : String
  email : String
  subject : String
  dataName : String
  dataActivationCode : String
deriving Repr, DecidableEq

/-- An HTTP outcome: either `res.status(status).json(body)` or the error
forwarded through `next(new ErrorHandler(message, status))`. -/
inductive Outcome (β : Type) where
  | ok (status : Nat) (body : β)
  | err (status : Nat) (message : String)
deriving Repr, DecidableEq

/-- The JSON body of a successful `registerUser` response:
`{success, message, activationToken}`. -/
structure RegisterBody where
  message : String
  activationToken : Jwt
deriving Repr, DecidableEq

/-- Result of `createActivationToken` (interface `IActivationToken`). -/
structure IActivationToken where
  activationCode : String
  token : Jwt
deriving Repr, DecidableEq

/-- `createActivationToken(user)`: draws a 4-digit activation code
`Math.floor(Math.random() * 9000 + 1000)` — modelled by reducing the
environment's random sample `rand` into the range `[1000, 9999]` — and signs
`{user, activationCode}` with the activation secret and a 5-minute
(300-second) expiry. -/
def createActivationToken (user : IRegisterUser) (rand : Nat)
    (activationSecret : String) (now : Nat) : IActivationToken :=
  let activationCode := toString (rand % 9000 + 1000)
  { activationCode := activationCode
    token := jwtSign (.activation user activationCode) activationSecret now 300 }

/-- The literal 400 message of the password-strength check in `registerUser`. -/
def pwWeakMsg : String :=
  "Password must be at least 8 characters long and contain at least 1 lowercase, 1 uppercase, 1 number and 1 special character"

/-- Modelled from the spec: `validator.isStrongPassword` with its default
policy — the source calls the external `validator` package, whose code is
not under `src/`; the spec describes the policy as at least 8 characters
with at least one lowercase letter, one uppercase letter, one number and
one special character. -/
def isStrongPassword (s : String) : Bool :=
  decide (8 ≤ s.data.length)
  && s.data.any (fun c => 'a' ≤ c && c ≤ 'z')
  && s.data.any (fun c => 'A' ≤ c && c ≤ 'Z')
  && s.data.any (fun c => '0' ≤ c && c ≤ '9')
  && s.data.any (fun c => !(('a' ≤ c && c ≤ 'z') || ('A' ≤ c && c ≤ 'Z') || ('0' ≤ c && c ≤ '9')))

/-- Environment of `registerUser`: the user database, the external
`validator.isEmail` oracle, whether the mail transport succeeds (and the
error message it throws otherwise), the random sample behind the
activation code, the activation secret and the clock. -/
structure RegisterEnv where
  db : List IUser
  isEmail : String → Bool
  mailOk : Bool
  mailErr : String
  rand : Nat
  activationSecret : String
  now : Nat

/-- Result of `registerUser`: outcome plus the emails actually delivered. -/
structure RegisterResult where
  outcome : Outcome RegisterBody
  emailsSent : List MailArgs
deriving Repr, DecidableEq

/-- `registerUser`: rejects with 400 when a field is missing, the email is
invalid, the password is weak, or the email is already registered; then
issues the activation token, emails the code, and responds 201 with the
token (500 when the mail transport throws). -/
def registerUser (env : RegisterEnv) (name email password : Option String) :
    RegisterResult :=
  if strFalsy name || strFalsy email || strFalsy password then
    ⟨.err 400 "Please enter all fields", []⟩
  else
    let name := name.getD ""
    let email := email.getD ""
    let password := password.getD ""
    if !(env.isEmail email) then ⟨.err 400 "Invalid Email", []⟩
    else if !(isStrongPassword password) then ⟨.err 400 pwWeakMsg, []⟩
    else if (findOneByEmail env.db email).isSome then
      ⟨.err 400 "Email already exists", []⟩
    else
      let user : IRegisterUser := ⟨name, email, password⟩
      let tok := createActivationToken user env.rand env.activationSecret env.now
      let mail : MailArgs :=
        ⟨"activateEmail.ejs", email, "Account Activation", name, tok.activationCode⟩
      if env.mailOk then
        ⟨.ok 201 ⟨"Activation code sent to " ++ email, tok.token⟩, [mail]⟩
      else ⟨.err 500 env.mailErr, []⟩

/-- The JSON body of a successful `activateUser` response. -/
structure ActivateBody where
  user : IUser
  message : String
deriving Repr, DecidableEq

/-- Environment of `activateUser`: the user database, the activation
secret and the clock. -/
structure ActivateEnv where
  db : List IUser
  activationSecret : String
  now : Nat

/-- Result of `activateUser`: outcome plus the database afterwards. -/
structure ActivateResult where
  outcome : Outcome ActivateBody
  db : List IUser
deriving Repr, DecidableEq

/-- `activateUser`: verifies the activation token against the activation
secret (a verification failure is caught and forwarded as a 500 error),
rejects with 400 `Invalid Activation Code` when the submitted code differs
from the one in the token, and otherwise creates the user carried in the
token and responds 201.  The database is not consulted before the create. -/
def activateUser (env : ActivateEnv) (activation_token : Jwt)
    (activation_code : String) : ActivateResult :=
  match jwtVerify activation_token env.activationSecret env.now with
  | .error m => ⟨.err 500 m, env.db⟩
  | .ok p =>
    match p with
    | .activation user code =>
      if activation_code != code then
        ⟨.err 400 "Invalid Activation Code", env.db⟩
      else
        let r := userCreate env.db user.name user.email user.password
        ⟨.ok 201 ⟨r.1, "Account activated successfully"⟩, r.2⟩
    | .session _ =>
      -- `verifyToken.user` is undefined on a session payload; reading its
      -- fields throws and the catch forwards a 500 error.
      ⟨.err 500 "Cannot read properties of undefined", env.db⟩

/-- Environment of `userLogin`: the user database, the bcrypt comparison
behind `user.comparePasswords` (external to `src/`, kept abstract), and
whether `sendToken` succeeds (with the message it throws otherwise). -/
structure LoginEnv where
  db : List IUser
  comparePasswords : IUser → String → Bool
  sendTokenOk : Bool
  sendTokenErr : String

/-- Result of `userLogin`: the outcome, and the user `sendToken` was
called for (if it was called at all). -/
structure LoginResult where
  outcome : Outcome Unit
  sentTokenFor : Option IUser
deriving Repr, DecidableEq

/-- `userLogin`: 400 when a field is absent; 400 with the message
`email or password is invalid` both when no user has the email and when the
password comparison fails; otherwise calls `sendToken(user, res)` (a thrown
`sendToken` failure is forwarded as a 400 error). -/
def userLogin (env : LoginEnv) (email password : Option String) : LoginResult :=
  if strFalsy password || strFalsy email then
    ⟨.err 400 "Please provide all the fields", none⟩
  else
    let email := email.getD ""
    let password := password.getD ""
    match findOneByEmail env.db email with
    | none => ⟨.err 400 "email or password is invalid", none⟩
    | some user =>
      if !(env.comparePasswords user password) then
        ⟨.err 400 "email or password is invalid", none⟩
      else if env.sendTokenOk then ⟨.ok 200 (), some user⟩
      else ⟨.err 400 env.sendTokenErr, some user⟩

/-- `redis.get(key)` over the cache contents (key, serialized value). -/
def redisGet (cache : List (String × String)) (key : String) : Option String :=
  (cache.find? (fun p => p.1 == key)).map Prod.snd

/-- Environment shared by `UpdateAccessToken` and `getUserInfo`: the user
database (present but never consulted by either handler), the redis session
cache, the `JSON.parse` deserialization of a cached session (`.error` when
the string is not JSON and the parse throws, `.ok none` when it parses to a
falsy value such as `null`), the two token secrets and the clock. -/
structure SessionEnv where
  db : List IUser
  cache : List (String × String)
  parseUser : String → Except String (Option IUser)
  refreshSecret : String
  accessSecret : String
  now : Nat

/-- The JSON body of a successful `UpdateAccessToken` response. -/
structure RefreshBody where
  accessToken : Jwt
deriving Repr, DecidableEq

/-- Result of `UpdateAccessToken`: the outcome plus the cookies set. -/
structure RefreshResult where
  outcome : Outcome RefreshBody
  cookiesSet : List (String × Jwt)
deriving Repr, DecidableEq

/-- `UpdateAccessToken`: 401 when the `refresh_token` cookie is absent;
verifies the cookie against the refresh secret (a thrown verification
failure is caught as a 400 error); resolves the session user by
`JSON.parse(await redis.get(decoded.id))` — a missing session yields `null`
and reading `user._id` throws, caught as a 400 error — then signs a fresh
5-minute access token and a fresh 7-day refresh token for `user._id`, sets
both cookies and responds 200 with the access token.  The commented-out
`userModel.findById` is dead: the database is never consulted. -/
def UpdateAccessToken (env : SessionEnv) (refresh_token : Option Jwt) :
    RefreshResult :=
  match refresh_token with
  | none => ⟨.err 401 "Refresh token not found", []⟩
  | some t =>
    match jwtVerify t env.refreshSecret env.now with
    | .error m => ⟨.err 400 m, []⟩
    | .ok p =>
      match p with
      | .activation _ _ =>
        -- `decoded.id` is undefined: the cache lookup misses, the parse
        -- yields `null`, and `user._id` throws.
        ⟨.err 400 "Cannot read properties of null", []⟩
      | .session id =>
        match redisGet env.cache id with
        | none => ⟨.err 400 "Cannot read properties of null", []⟩
        | some s =>
          match env.parseUser s with
          | .error m => ⟨.err 400 m, []⟩
          | .ok none => ⟨.err 400 "Cannot read properties of null", []⟩
          | .ok (some user) =>
            let accessToken := jwtSign (.session user._id) env.accessSecret env.now 300
            let refreshToken := jwtSign (.session user._id) env.refreshSecret env.now 604800
            ⟨.ok 200 ⟨accessToken⟩,
             [("access_token", accessToken), ("refresh_token", refreshToken)]⟩

/-- `getUserInfo`: resolves the current user by `req.user._id` from the
redis cache alone; a missing session (or one that deserializes to a falsy
value) yields a 404, a parse failure a 400.  The commented-out
`userModel.findById` is dead: the database is never consulted. -/
def getUserInfo (env : SessionEnv) (userId : String) : Outcome IUser :=
  match redisGet env.cache userId with
  | none => .err 404 ("user: " ++ userId ++ " not found")
  | some s =>
    match env.parseUser s with
    | .error m => .err 400 m
    | .ok none => .err 404 ("user: " ++ userId ++ " not found")
    | .ok (some user) => .ok 200 user

/-- A Sanity `reminder` document.  `eventRef` is `eventId._ref`, absent
when the reminder has no `eventId` or no `_ref` under it. -/
structure Reminder where
  _id : String
  eventRef : Option String
  userId : String
  sent : Bool
  reminderTime : Nat
deriving Repr, DecidableEq

/-- A Sanity `event` document. -/
structure Event where
  _id : String
  title : String
deriving Repr, DecidableEq

/-- Environment of `setReminder`: the CMS content, the user database, the
clock, and the failure behaviour of the mail transport and of the Sanity
patch commit, keyed by the reminder id being processed. -/
structure ReminderEnv where
  reminders : List Reminder
  events : List Event
  db : List IUser
  now : Nat
  frontendUrl : String
  mailFails : String → Bool
  patchFails : String → Bool

/-- The GROQ query
`*[_type == "reminder" && sent == false && reminderTime <= now()]`:
the due, unsent reminders. -/
def dueUnsent (reminders : List Reminder) (now : Nat) : List Reminder :=
  reminders.filter (fun r => !r.sent && decide (r.reminderTime ≤ now))

/-- `*[_type == "event" && _id == $eventId][0]`. -/
def fetchEvent (events : List Event) (eventId : String) : Option Event :=
  events.find? (fun e => e._id == eventId)

/-- The guard phase of one `setReminder` loop iteration: the three
`continue` checks — a reminder with no event reference, a missing event,
or a missing user — yield `none`; otherwise the event and the user for the
reminder are returned.  A thrown `sendMail` in the subsequent try block is
caught by the per-item catch before the patch runs; a thrown patch commit
is caught by the same per-item catch. -/
def reminderLookups (env : ReminderEnv) (r : Reminder) : Option (Event × IUser) :=
  match r.eventRef with
  | none => none
  | some eventId =>
    match fetchEvent env.events eventId with
    | none => none
    | some event =>
      match findById env.db r.userId with
      | none => none
      | some user => some (event, user)

/-- One iteration of the `setReminder` loop body after the guards: returns
the email delivered for this reminder (if any) and the id patched to
`sent: true` (if the patch was executed and committed). -/
def processReminder (env : ReminderEnv) (r : Reminder) :
    Option MailArgs × Option String :=
  match reminderLookups env r with
  | none => (none, none)
  | some (event, user) =>
    if env.mailFails r._id then (none, none)
    else
      let mail : MailArgs :=
        ⟨"reminderEvent.ejs", user.email, "Reminder: " ++ event.title,
         user.name, env.frontendUrl ++ "events/" ++ event._id⟩
      if env.patchFails r._id then (some mail, none)
      else (some mail, some r._id)

/-- The sequential `for (const reminder of reminders)` loop, accumulating
the emails sent and the reminder ids patched in order. -/
def reminderLoop (env : ReminderEnv) :
    List Reminder → List MailArgs × List String → List MailArgs × List String
  | [], acc => acc
  | r :: rs, acc =>
    let pr := processReminder env r
    reminderLoop env rs (acc.1 ++ pr.1.toList, acc.2 ++ pr.2.toList)

/-- Result of `setReminder`: the outcome, the emails delivered and the
reminder ids patched to `sent: true`. -/
structure ReminderResult where
  outcome : Outcome String
  emailsSent : List MailArgs
  patched : List String
deriving Repr, DecidableEq

/-- The body of a `setReminder` run; the `Outcome` body is the `message`
field of the JSON response. -/
def setReminder (env : ReminderEnv) : ReminderResult :=
  let reminders := dueUnsent env.reminders env.now
  if reminders.length == 0 then
    ⟨.ok 200 "No reminders to send", [], []⟩
  else
    let acc := reminderLoop env reminders ([], [])
    ⟨.ok 200 "Reminders processed successfully", acc.1, acc.2⟩

/-! ## Concrete data for the closed examples -/

/-- A concrete registration record for the closed examples. -/
def regC : IRegisterUser := ⟨"Sam", "sam@mail.com", "Password1!"⟩

/-- A concrete persisted user for the closed examples. -/
def userC : IUser := ⟨"u1", "Sam", "sam@mail.com", "Password1!"⟩

/-- A concrete session environment for the closed examples. -/
def sessEnvC : SessionEnv :=
  { db := [userC]
    cache := [("u1", "serialized")]
    parseUser := fun s => if s == "serialized" then .ok (some userC) else .error "Unexpected token"
    refreshSecret := "rsec"
    accessSecret := "asec"
    now := 10 }

/-- A concrete refresh-token cookie for the closed examples. -/
def rtokC : Jwt := jwtSign (.session "u1") "rsec" 0 604800

/-- A concrete register environment for the closed examples: empty
database, one syntactically valid email, working mail transport. -/
def regEnvC : RegisterEnv :=
  { db := []
    isEmail := fun s => s == "sam@mail.com"
    mailOk := true
    mailErr := "transport closed"
    rand := 42
    activationSecret := "asec"
    now := 5 }

/-- A concrete login environment for the closed examples: one user, the
stored-password comparison, working `sendToken`. -/
def loginEnvC : LoginEnv :=
  { db := [userC]
    comparePasswords := fun u pw => u.password == pw
    sendTokenOk := true
    sendTokenErr := "cookie error" }

/-- Applying the committed `sanity.patch(id).set({sent: true})` calls to
the CMS content. -/
def markSent (reminders : List Reminder) (patched : List String) : List Reminder :=
  reminders.map (fun r => if r._id ∈ patched then { r with sent := true } else r)

/-- A concrete reminder whose email send fails in the closed examples. -/
def remC : Reminder := ⟨"r1", some "e1", "u1", false, 3⟩

/-- A concrete reminder whose email send succeeds in the closed examples. -/
def remC2 : Reminder := ⟨"r2", some "e1", "u1", false, 4⟩

/-- A concrete event for the closed examples. -/
def evC : Event := ⟨"e1", "Standup"⟩

/-- A concrete reminder environment: two due, unsent reminders of which
the first one's email send throws. -/
def remEnvC : ReminderEnv :=
  { reminders := [remC, remC2]
    events := [evC]
    db := [userC]
    now := 5
    frontendUrl := "https://app/"
    mailFails := fun id => id == "r1"
    patchFails := fun _ => false }

/-- A concrete reminder environment whose scan finds nothing due. -/
def remEnvEmptyC : ReminderEnv :=
  { reminders := [⟨"r3", some "e1", "u1", true, 3⟩, ⟨"r4", some "e1", "u1", false, 9⟩]
    events := [evC]
    db := [userC]
    now := 5
    frontendUrl := "https://app/"
    mailFails := fun _ => false
    patchFails := fun _ => false }

/-! ## C1 -/

/-- C1: for a request whose `refresh_token` cookie verifies against the
refresh secret and whose session is cached, `UpdateAccessToken` signs a
fresh 5-minute (300 s) access token and a fresh 7-day (604800 s) refresh
token for the session user's id, sets both as cookies and responds 200
with the new access token; when the cookie is absent it forwards a 401
`Refresh token not found` error and sets no cookies. -/
theorem c1_dual_token_rotation (env : SessionEnv) (t : Jwt) (id s : String)
    (user : IUser)
    (hv : jwtVerify t env.refreshSecret env.now = .ok (.session id))
    (hc : redisGet env.cache id = some s)
    (hp : env.parseUser s = .ok (some user)) :
    UpdateAccessToken env (some t) =
      ⟨.ok 200 ⟨jwtSign (.session user._id) env.accessSecret env.now 300⟩,
        [("access_token", jwtSign (.session user._id) env.accessSecret env.now 300),
         ("refresh_token", jwtSign (.session user._id) env.refreshSecret env.now 604800)]⟩
    ∧ UpdateAccessToken env none = ⟨.err 401 "Refresh token not found", []⟩ := by
  refine ⟨?_, rfl⟩
  simp [UpdateAccessToken, hv, hc, hp]

/-- C1 witness: the rotation at a concrete environment and cookie. -/
theorem c1_dual_token_rotation_witness :
    UpdateAccessToken sessEnvC (some rtokC) =
      ⟨.ok 200 ⟨jwtSign (.session "u1") "asec" 10 300⟩,
        [("access_token", jwtSign (.session "u1") "asec" 10 300),
         ("refresh_token", jwtSign (.session "u1") "rsec" 10 604800)]⟩
    ∧ UpdateAccessToken sessEnvC none = ⟨.err 401 "Refresh token not found", []⟩ :=
  c1_dual_token_rotation sessEnvC rtokC "u1" "serialized" userC rfl rfl rfl

/-! ## C2 -/

/-- C2: the activation token carries a 5-minute (300 s) expiry, so an
expired token fails verification and no account is created; a live token
with a mismatched code is rejected with 400 `Invalid Activation Code`; a
live token with the matching code creates the user carried in the token
and responds 201 `Account activated successfully`. -/
theorem c2_activate_user (env : ActivateEnv) (u : IRegisterUser)
    (code : String) (rand t0 : Nat) :
    (createActivationToken u rand env.activationSecret t0).token.expiresInSec = 300
    ∧ (t0 + 300 ≤ env.now →
        activateUser env (createActivationToken u rand env.activationSecret t0).token code
          = ⟨.err 500 "jwt expired", env.db⟩)
    ∧ (env.now < t0 + 300 →
        code ≠ (createActivationToken u rand env.activationSecret t0).activationCode →
        activateUser env (createActivationToken u rand env.activationSecret t0).token code
          = ⟨.err 400 "Invalid Activation Code", env.db⟩)
    ∧ (env.now < t0 + 300 →
        code = (createActivationToken u rand env.activationSecret t0).activationCode →
        activateUser env (createActivationToken u rand env.activationSecret t0).token code
          = ⟨.ok 201 ⟨(userCreate env.db u.name u.email u.password).1,
              "Account activated successfully"⟩,
             (userCreate env.db u.name u.email u.password).2⟩) := by
  refine ⟨rfl, ?_, ?_, ?_⟩
  · intro h
    simp [activateUser, createActivationToken, jwtVerify, jwtSign, h]
  · intro h hne
    simp [createActivationToken, jwtSign] at hne
    simp [activateUser, createActivationToken, jwtVerify, jwtSign, Nat.not_le.mpr h, hne]
  · intro h he
    simp [createActivationToken, jwtSign] at he
    simp [activateUser, createActivationToken, jwtVerify, jwtSign, Nat.not_le.mpr h, he,
      userCreate]

/-- C2 witness: expiry, mismatch and success at concrete inputs
(`42 % 9000 + 1000 = 1042`). -/
theorem c2_activate_user_witness :
    (createActivationToken regC 42 "asec" 0).token.expiresInSec = 300
    ∧ activateUser ⟨[], "asec", 400⟩ (createActivationToken regC 42 "asec" 0).token "1042"
        = ⟨.err 500 "jwt expired", []⟩
    ∧ activateUser ⟨[], "asec", 100⟩ (createActivationToken regC 42 "asec" 0).token "9999"
        = ⟨.err 400 "Invalid Activation Code", []⟩
    ∧ activateUser ⟨[], "asec", 100⟩ (createActivationToken regC 42 "asec" 0).token "1042"
        = ⟨.ok 201 ⟨(userCreate [] regC.name regC.email regC.password).1,
            "Account activated successfully"⟩,
           (userCreate [] regC.name regC.email regC.password).2⟩ :=
  ⟨(c2_activate_user ⟨[], "asec", 400⟩ regC "1042" 42 0).1,
   (c2_activate_user ⟨[], "asec", 400⟩ regC "1042" 42 0).2.1 (by decide),
   (c2_activate_user ⟨[], "asec", 100⟩ regC "9999" 42 0).2.2.1 (by decide) (by decide),
   (c2_activate_user ⟨[], "asec", 100⟩ regC "1042" 42 0).2.2.2 (by decide) (by decide)⟩

/-! ## C8 -/

/-- C8: `activateUser` never re-checks that the email is unused: whenever
the token verifies and the code matches, the carried user is appended to
the database regardless of its contents, and replaying the same still-valid
token and code adds a second record with the same email (the
duplicate-email check lives only in `registerUser`). -/
theorem c8_duplicate_activation (env : ActivateEnv) (u : IRegisterUser)
    (code : String) (t : Jwt)
    (hv : jwtVerify t env.activationSecret env.now = .ok (.activation u code)) :
    (activateUser env t code).db
        = env.db ++ [(userCreate env.db u.name u.email u.password).1]
    ∧ (activateUser env t code).outcome
        = .ok 201 ⟨(userCreate env.db u.name u.email u.password).1,
            "Account activated successfully"⟩
    ∧ ((activateUser { env with db := (activateUser env t code).db } t code).db.filter
          (fun x => x.email == u.email)).length
        = (env.db.filter (fun x => x.email == u.email)).length + 2 := by
  have h1 : activateUser env t code
      = ⟨.ok 201 ⟨(userCreate env.db u.name u.email u.password).1,
          "Account activated successfully"⟩,
         (userCreate env.db u.name u.email u.password).2⟩ := by
    simp [activateUser, hv, userCreate]
  have h2 : ∀ db2 : List IUser, activateUser { env with db := db2 } t code
      = ⟨.ok 201 ⟨(userCreate db2 u.name u.email u.password).1,
          "Account activated successfully"⟩,
         (userCreate db2 u.name u.email u.password).2⟩ := by
    intro db2
    have hv2 : jwtVerify t ({ env with db := db2 } : ActivateEnv).activationSecret
        ({ env with db := db2 } : ActivateEnv).now = .ok (.activation u code) := hv
    simp [activateUser, hv2, userCreate]
  refine ⟨by simp [h1, userCreate], by simp [h1], ?_⟩
  rw [h1, h2]
  simp [userCreate, List.filter_append]

/-- C8 witness: replaying a concrete valid activation token on what starts
as an empty database leaves two records with the same email. -/
theorem c8_duplicate_activation_witness :
    (activateUser ⟨[], "asec", 100⟩ (jwtSign (.activation regC "1042") "asec" 0 300) "1042").db
        = [] ++ [(userCreate [] regC.name regC.email regC.password).1]
    ∧ ((activateUser
          { (⟨[], "asec", 100⟩ : ActivateEnv) with
            db := (activateUser ⟨[], "asec", 100⟩
                (jwtSign (.activation regC "1042") "asec" 0 300) "1042").db }
          (jwtSign (.activation regC "1042") "asec" 0 300) "1042").db.filter
          (fun x => x.email == regC.email)).length
        = (([] : List IUser).filter (fun x => x.email == regC.email)).length + 2 :=
  ⟨(c8_duplicate_activation ⟨[], "asec", 100⟩ regC "1042"
      (jwtSign (.activation regC "1042") "asec" 0 300) rfl).1,
   (c8_duplicate_activation ⟨[], "asec", 100⟩ regC "1042"
      (jwtSign (.activation regC "1042") "asec" 0 300) rfl).2.2⟩

/-! ## C3 -/

/-- C3: `registerUser` answers 400 and delivers no activation email when a
field is missing, the email is invalid, the password is weak, or the email
is already registered; when all four checks pass (and the transport
succeeds) it delivers the activation email and responds 201 with the
activation token; and an email is delivered only when all four checks
pass. -/
theorem c3_register_user (env : RegisterEnv)
    (name email password : Option String) (n e p : String) :
    ((strFalsy name || strFalsy email || strFalsy password) = true →
       registerUser env name email password = ⟨.err 400 "Please enter all fields", []⟩)
    ∧ (name = some n → email = some e → password = some p →
       (strFalsy name || strFalsy email || strFalsy password) = false →
       ((env.isEmail e = false →
           registerUser env name email password = ⟨.err 400 "Invalid Email", []⟩)
        ∧ (env.isEmail e = true → isStrongPassword p = false →
           registerUser env name email password = ⟨.err 400 pwWeakMsg, []⟩)
        ∧ (env.isEmail e = true → isStrongPassword p = true →
           (findOneByEmail env.db e).isSome = true →
           registerUser env name email password = ⟨.err 400 "Email already exists", []⟩)
        ∧ (env.isEmail e = true → isStrongPassword p = true →
           (findOneByEmail env.db e).isSome = false → env.mailOk = true →
           registerUser env name email password =
             ⟨.ok 201 ⟨"Activation code sent to " ++ e,
                (createActivationToken ⟨n, e, p⟩ env.rand env.activationSecret env.now).token⟩,
              [⟨"activateEmail.ejs", e, "Account Activation", n,
                (createActivationToken ⟨n, e, p⟩ env.rand env.activationSecret env.now).activationCode⟩]⟩)))
    ∧ ((registerUser env name email password).emailsSent ≠ [] →
        (strFalsy name || strFalsy email || strFalsy password) = false
        ∧ env.isEmail (email.getD "") = true
        ∧ isStrongPassword (password.getD "") = true
        ∧ (findOneByEmail env.db (email.getD "")).isSome = false) := by
  refine ⟨?_, ?_, ?_⟩
  · intro h
    simp [registerUser, h]
  · intro hn he hp hfls
    subst hn he hp
    refine ⟨?_, ?_, ?_, ?_⟩
    · intro h1
      simp [registerUser, hfls, h1]
    · intro h1 h2
      simp [registerUser, hfls, h1, h2]
    · intro h1 h2 h3
      simp [registerUser, hfls, h1, h2, h3]
    · intro h1 h2 h3 h4
      simp [registerUser, hfls, h1, h2, h3, h4, createActivationToken]
  · intro hne
    by_cases hfls : (strFalsy name || strFalsy email || strFalsy password) = true
    · exfalso; apply hne; simp [registerUser, hfls]
    · rw [Bool.not_eq_true] at hfls
      refine ⟨hfls, ?_⟩
      by_cases h1 : env.isEmail (email.getD "") = true
      · refine ⟨h1, ?_⟩
        by_cases h2 : isStrongPassword (password.getD "") = true
        · refine ⟨h2, ?_⟩
          by_cases h3 : (findOneByEmail env.db (email.getD "")).isSome = true
          · exfalso; apply hne; simp [registerUser, hfls, h1, h2, h3]
          · simpa using h3
        · exfalso; apply hne
          rw [Bool.not_eq_true] at h2
          simp [registerUser, hfls, h1, h2]
      · exfalso; apply hne
        rw [Bool.not_eq_true] at h1
        simp [registerUser, hfls, h1]

/-- C3 witness: a missing field rejects with 400 and no email, and the
fully valid concrete registration delivers the email and responds 201. -/
theorem c3_register_user_witness :
    registerUser regEnvC none (some "sam@mail.com") (some "Password1!")
      = ⟨.err 400 "Please enter all fields", []⟩
    ∧ registerUser regEnvC (some "Sam") (some "sam@mail.com") (some "Password1!")
      = ⟨.ok 201 ⟨"Activation code sent to sam@mail.com",
          (createActivationToken ⟨"Sam", "sam@mail.com", "Password1!"⟩ 42 "asec" 5).token⟩,
         [⟨"activateEmail.ejs", "sam@mail.com", "Account Activation", "Sam",
           (createActivationToken ⟨"Sam", "sam@mail.com", "Password1!"⟩ 42 "asec" 5).activationCode⟩]⟩ :=
  ⟨(c3_register_user regEnvC none (some "sam@mail.com") (some "Password1!")
      "" "sam@mail.com" "Password1!").1 (by decide),
   ((c3_register_user regEnvC (some "Sam") (some "sam@mail.com") (some "Password1!")
      "Sam" "sam@mail.com" "Password1!").2.1 rfl rfl rfl (by decide)).2.2.2
      rfl (by decide) rfl rfl⟩

/-! ## C4 -/

/-- C4: `userLogin` answers 400 when email or password is absent, and
answers 400 with the identical message `email or password is invalid` both
when no user has the email and when the password comparison fails;
`sendToken` is called exactly for a user whose email exists and whose
password matches. -/
theorem c4_user_login (env : LoginEnv) (email password : Option String)
    (e p : String) :
    ((strFalsy password || strFalsy email) = true →
       userLogin env email password = ⟨.err 400 "Please provide all the fields", none⟩)
    ∧ (email = some e → password = some p →
       (strFalsy password || strFalsy email) = false →
       ((findOneByEmail env.db e = none →
           userLogin env email password = ⟨.err 400 "email or password is invalid", none⟩)
        ∧ (∀ u, findOneByEmail env.db e = some u → env.comparePasswords u p = false →
           userLogin env email password = ⟨.err 400 "email or password is invalid", none⟩)
        ∧ (∀ u, findOneByEmail env.db e = some u → env.comparePasswords u p = true →
           (userLogin env email password).sentTokenFor = some u)))
    ∧ (∀ u, (userLogin env email password).sentTokenFor = some u →
        findOneByEmail env.db (email.getD "") = some u
        ∧ env.comparePasswords u (password.getD "") = true) := by
  refine ⟨?_, ?_, ?_⟩
  · intro h
    simp [userLogin, h]
  · intro he hp hfls
    subst he hp
    refine ⟨?_, ?_, ?_⟩
    · intro h1
      simp [userLogin, hfls, h1]
    · intro u h1 h2
      simp [userLogin, hfls, h1, h2]
    · intro u h1 h2
      by_cases h3 : env.sendTokenOk = true
      · simp [userLogin, hfls, h1, h2, h3]
      · rw [Bool.not_eq_true] at h3
        simp [userLogin, hfls, h1, h2, h3]
  · intro u hu
    by_cases hfls : (strFalsy password || strFalsy email) = true
    · exfalso
      have : userLogin env email password = ⟨.err 400 "Please provide all the fields", none⟩ := by
        simp [userLogin, hfls]
      rw [this] at hu
      exact Option.noConfusion hu
    · rw [Bool.not_eq_true] at hfls
      rcases h1 : findOneByEmail env.db (email.getD "") with _ | u2
      · exfalso
        have : userLogin env email password = ⟨.err 400 "email or password is invalid", none⟩ := by
          simp [userLogin, hfls, h1]
        rw [this] at hu
        exact Option.noConfusion hu
      · by_cases h2 : env.comparePasswords u2 (password.getD "") = true
        · have hsent : (userLogin env email password).sentTokenFor = some u2 := by
            by_cases h3 : env.sendTokenOk = true
            · simp [userLogin, hfls, h1, h2, h3]
            · rw [Bool.not_eq_true] at h3
              simp [userLogin, hfls, h1, h2, h3]
          rw [hsent] at hu
          injection hu with h4
          subst h4
          exact ⟨rfl, h2⟩
        · exfalso
          rw [Bool.not_eq_true] at h2
          have : userLogin env email password
              = ⟨.err 400 "email or password is invalid", none⟩ := by
            simp [userLogin, hfls, h1, h2]
          rw [this] at hu
          exact Option.noConfusion hu

/-- C4 witness: absent field, unknown email and wrong password at concrete
inputs, plus the successful call of `sendToken` for the matching user. -/
theorem c4_user_login_witness :
    userLogin loginEnvC (some "sam@mail.com") none
      = ⟨.err 400 "Please provide all the fields", none⟩
    ∧ userLogin loginEnvC (some "who@mail.com") (some "Password1!")
      = ⟨.err 400 "email or password is invalid", none⟩
    ∧ userLogin loginEnvC (some "sam@mail.com") (some "WrongPw1!")
      = ⟨.err 400 "email or password is invalid", none⟩
    ∧ (userLogin loginEnvC (some "sam@mail.com") (some "Password1!")).sentTokenFor
      = some userC :=
  ⟨(c4_user_login loginEnvC (some "sam@mail.com") none "sam@mail.com" "").1 (by decide),
   ((c4_user_login loginEnvC (some "who@mail.com") (some "Password1!")
      "who@mail.com" "Password1!").2.1 rfl rfl (by decide)).1 rfl,
   ((c4_user_login loginEnvC (some "sam@mail.com") (some "WrongPw1!")
      "sam@mail.com" "WrongPw1!").2.1 rfl rfl (by decide)).2.1 userC rfl (by decide),
   ((c4_user_login loginEnvC (some "sam@mail.com") (some "Password1!")
      "sam@mail.com" "Password1!").2.1 rfl rfl (by decide)).2.2 userC rfl (by decide)⟩

/-! ## Reminder helpers and concrete data -/

/-- The loop result is the per-item results in order: each reminder's
contribution is a function of that reminder alone. -/
theorem reminderLoop_filterMap (env : ReminderEnv) (l : List Reminder)
    (a : List MailArgs) (b : List String) :
    reminderLoop env l (a, b) =
      (a ++ l.filterMap (fun r => (processReminder env r).1),
       b ++ l.filterMap (fun r => (processReminder env r).2)) := by
  induction l generalizing a b with
  | nil => simp [reminderLoop]
  | cons r rs ih =>
    have hstep : reminderLoop env (r :: rs) (a, b)
        = reminderLoop env rs (a ++ (processReminder env r).1.toList,
            b ++ (processReminder env r).2.toList) := rfl
    rw [hstep, ih]
    rcases h1 : (processReminder env r).1 with _ | m <;>
      rcases h2 : (processReminder env r).2 with _ | pid <;>
        simp [List.filterMap_cons, h1, h2]

/-- A patch fires only for the reminder's own id, only when its email did
not fail, and only alongside a delivered email. -/
theorem processReminder_patch_sound (env : ReminderEnv) (x : Reminder)
    (pid : String) (h : (processReminder env x).2 = some pid) :
    pid = x._id ∧ env.mailFails x._id = false
      ∧ (processReminder env x).1.isSome = true := by
  unfold processReminder at h ⊢
  rcases hl : reminderLookups env x with _ | ⟨ev, u⟩
  · simp [hl] at h
  · by_cases hm : env.mailFails x._id = true
    · simp [hl, hm] at h
    · rw [Bool.not_eq_true] at hm
      by_cases hp : env.patchFails x._id = true
      · simp [hl, hm, hp] at h
      · rw [Bool.not_eq_true] at hp
        simp [hl, hm, hp] at h ⊢
        exact h.symm

/-- Every id patched by a `setReminder` run had a successful email: a
reminder whose send failed is never patched. -/
theorem setReminder_patched_mail_ok (env : ReminderEnv) (pid : String)
    (h : pid ∈ (setReminder env).patched) : env.mailFails pid = false := by
  unfold setReminder at h
  by_cases hlen : ((dueUnsent env.reminders env.now).length == 0) = true
  · simp [hlen] at h
  · rw [Bool.not_eq_true] at hlen
    simp only [hlen] at h
    rw [reminderLoop_filterMap] at h
    simp only [List.nil_append, Bool.false_eq_true, if_false] at h
    rw [List.mem_filterMap] at h
    obtain ⟨x, _, hfx⟩ := h
    obtain ⟨hpid, hmf, _⟩ := processReminder_patch_sound env x pid hfx
    rw [hpid]
    exact hmf

/-! ## C5 -/

/-- C5: on a non-empty scan the routine always responds 200
`Reminders processed successfully`, whatever the mail transport does; the
emails and patches are the in-order concatenation of per-item results,
each a function of that reminder alone; and an item whose send throws
contributes nothing while the loop continues with the rest. -/
theorem c5_loop_isolated_failures (env : ReminderEnv)
    (h : dueUnsent env.reminders env.now ≠ []) :
    (setReminder env).outcome = .ok 200 "Reminders processed successfully"
    ∧ (setReminder env).emailsSent =
        (dueUnsent env.reminders env.now).filterMap (fun r => (processReminder env r).1)
    ∧ (setReminder env).patched =
        (dueUnsent env.reminders env.now).filterMap (fun r => (processReminder env r).2)
    ∧ (∀ r ∈ dueUnsent env.reminders env.now, env.mailFails r._id = true →
        processReminder env r = (none, none)) := by
  have hlen : ((dueUnsent env.reminders env.now).length == 0) = false := by
    rcases hl : dueUnsent env.reminders env.now with _ | ⟨x, xs⟩
    · exact absurd hl h
    · rfl
  have hset : setReminder env
      = ⟨.ok 200 "Reminders processed successfully",
         (dueUnsent env.reminders env.now).filterMap (fun r => (processReminder env r).1),
         (dueUnsent env.reminders env.now).filterMap (fun r => (processReminder env r).2)⟩ := by
    unfold setReminder
    simp only [hlen, Bool.false_eq_true, if_false]
    rw [reminderLoop_filterMap]
    simp
  refine ⟨by rw [hset], by rw [hset], by rw [hset], ?_⟩
  intro r _ hm
  unfold processReminder
  rcases hl : reminderLookups env r with _ | ⟨ev, u⟩
  · rfl
  · simp [hm]

/-- C5 witness: in `remEnvC` the first reminder's send throws, yet the run
answers 200 `Reminders processed successfully`, the failing item
contributes nothing, and the second item is still processed. -/
theorem c5_loop_isolated_failures_witness :
    (setReminder remEnvC).outcome = .ok 200 "Reminders processed successfully"
    ∧ processReminder remEnvC remC = (none, none)
    ∧ (setReminder remEnvC).emailsSent =
        (dueUnsent remEnvC.reminders remEnvC.now).filterMap
          (fun r => (processReminder remEnvC r).1) :=
  ⟨(c5_loop_isolated_failures remEnvC (by decide)).1,
   (c5_loop_isolated_failures remEnvC (by decide)).2.2.2 remC (by decide) rfl,
   (c5_loop_isolated_failures remEnvC (by decide)).2.1⟩

/-! ## C6 -/

/-- C6: the scan returns exactly the reminders with `sent == false` and
`reminderTime <= now()`, and when that list is empty the routine responds
200 `No reminders to send` with no email and no patch. -/
theorem c6_empty_scan (env : ReminderEnv) :
    (∀ r ∈ dueUnsent env.reminders env.now,
        r ∈ env.reminders ∧ r.sent = false ∧ r.reminderTime ≤ env.now)
    ∧ (∀ r ∈ env.reminders, r.sent = false → r.reminderTime ≤ env.now →
        r ∈ dueUnsent env.reminders env.now)
    ∧ (dueUnsent env.reminders env.now = [] →
        setReminder env = ⟨.ok 200 "No reminders to send", [], []⟩) := by
  refine ⟨?_, ?_, ?_⟩
  · intro r hr
    rw [dueUnsent, List.mem_filter] at hr
    obtain ⟨h1, h2⟩ := hr
    simp only [Bool.and_eq_true, Bool.not_eq_true', decide_eq_true_eq] at h2
    exact ⟨h1, h2.1, h2.2⟩
  · intro r hr h1 h2
    rw [dueUnsent, List.mem_filter]
    refine ⟨hr, ?_⟩
    simp only [Bool.and_eq_true, Bool.not_eq_true', decide_eq_true_eq]
    exact ⟨h1, h2⟩
  · intro hemp
    unfold setReminder
    simp [hemp]

/-- C6 witness: the concrete empty scan — one reminder already sent, one
not yet due — answers 200 `No reminders to send` with no effects, and a
concrete due, unsent reminder is indeed picked up by a non-empty scan. -/
theorem c6_empty_scan_witness :
    setReminder remEnvEmptyC = ⟨.ok 200 "No reminders to send", [], []⟩
    ∧ remC ∈ dueUnsent remEnvC.reminders remEnvC.now :=
  ⟨(c6_empty_scan remEnvEmptyC).2.2 (by decide),
   (c6_empty_scan remEnvC).2.1 remC (by decide) rfl (by decide)⟩

/-! ## C7 -/

/-- C7: session lookup is cache-backed and keyed by user id — both
handlers are invariant under any change of the user database,
`UpdateAccessToken` resolves the user from the cache under the id decoded
from the refresh token, and `getUserInfo` reads the cache under
`req.user._id`, answering 404 when no session is cached. -/
theorem c7_cache_backed_sessions (env : SessionEnv) (db2 : List IUser)
    (rt : Option Jwt) (userId : String) :
    UpdateAccessToken { env with db := db2 } rt = UpdateAccessToken env rt
    ∧ getUserInfo { env with db := db2 } userId = getUserInfo env userId
    ∧ (∀ t id s user, rt = some t →
        jwtVerify t env.refreshSecret env.now = .ok (.session id) →
        redisGet env.cache id = some s → env.parseUser s = .ok (some user) →
        (UpdateAccessToken env rt).outcome
          = .ok 200 ⟨jwtSign (.session user._id) env.accessSecret env.now 300⟩)
    ∧ (redisGet env.cache userId = none →
        getUserInfo env userId = .err 404 ("user: " ++ userId ++ " not found"))
    ∧ (∀ s user, redisGet env.cache userId = some s →
        env.parseUser s = .ok (some user) →
        getUserInfo env userId = .ok 200 user) := by
  refine ⟨rfl, rfl, ?_, ?_, ?_⟩
  · intro t id s user ht hv hc hp
    subst ht
    simp [UpdateAccessToken, hv, hc, hp]
  · intro hmiss
    simp [getUserInfo, hmiss]
  · intro s user hc hp
    simp [getUserInfo, hc, hp]

/-- C7 witness: database-invariance, rotation from the cached session, the
cache-backed user info, and the 404 on a cache miss, at concrete inputs. -/
theorem c7_cache_backed_sessions_witness :
    UpdateAccessToken { sessEnvC with db := [] } (some rtokC)
      = UpdateAccessToken sessEnvC (some rtokC)
    ∧ (UpdateAccessToken sessEnvC (some rtokC)).outcome
      = .ok 200 ⟨jwtSign (.session userC._id) sessEnvC.accessSecret sessEnvC.now 300⟩
    ∧ getUserInfo sessEnvC "u1" = .ok 200 userC
    ∧ getUserInfo sessEnvC "nobody" = .err 404 ("user: " ++ "nobody" ++ " not found") :=
  ⟨(c7_cache_backed_sessions sessEnvC [] (some rtokC) "u1").1,
   (c7_cache_backed_sessions sessEnvC [] (some rtokC) "u1").2.2.1
     rtokC "u1" "serialized" userC rfl rfl rfl rfl,
   (c7_cache_backed_sessions sessEnvC [] (some rtokC) "u1").2.2.2.2
     "serialized" userC rfl rfl,
   (c7_cache_backed_sessions sessEnvC [] (some rtokC) "nobody").2.2.2.1 rfl⟩

/-! ## C9 -/

/-- C9: the `sent: true` patch for a reminder fires only for that
reminder's own id and only after its email was delivered; when the send
throws, the item is not patched, so a reminder left unsent by a mail
failure is found again by a later scan of the patched CMS content. -/
theorem c9_failed_send_stays_unsent (env : ReminderEnv) (r : Reminder) :
    (∀ pid, (processReminder env r).2 = some pid →
        pid = r._id ∧ env.mailFails r._id = false
          ∧ (processReminder env r).1.isSome = true)
    ∧ (env.mailFails r._id = true → processReminder env r = (none, none))
    ∧ (env.mailFails r._id = true → r._id ∉ (setReminder env).patched)
    ∧ (env.mailFails r._id = true → r ∈ dueUnsent env.reminders env.now →
        r ∈ dueUnsent (markSent env.reminders (setReminder env).patched) env.now) := by
  have hskip : env.mailFails r._id = true → processReminder env r = (none, none) := by
    intro hm
    unfold processReminder
    rcases hl : reminderLookups env r with _ | ⟨ev, u⟩
    · rfl
    · simp [hm]
  have hnotin : env.mailFails r._id = true → r._id ∉ (setReminder env).patched := by
    intro hm hmem
    have := setReminder_patched_mail_ok env r._id hmem
    rw [hm] at this
    exact Bool.noConfusion this
  refine ⟨fun pid h => processReminder_patch_sound env r pid h, hskip, hnotin, ?_⟩
  intro hm hr
  have hnp := hnotin hm
  rw [dueUnsent, List.mem_filter] at hr ⊢
  obtain ⟨hr1, hr2⟩ := hr
  refine ⟨?_, hr2⟩
  rw [markSent]
  refine List.mem_map.mpr ⟨r, hr1, ?_⟩
  rw [if_neg hnp]

/-- C9 witness: in `remEnvC` the failing reminder is not patched and is
found again by a scan of the patched CMS content; the succeeding one is
patched only together with its delivered email. -/
theorem c9_failed_send_stays_unsent_witness :
    processReminder remEnvC remC = (none, none)
    ∧ remC._id ∉ (setReminder remEnvC).patched
    ∧ remC ∈ dueUnsent (markSent remEnvC.reminders (setReminder remEnvC).patched) remEnvC.now
    ∧ (remEnvC.mailFails remC2._id = false
        ∧ (processReminder remEnvC remC2).1.isSome = true) :=
  ⟨(c9_failed_send_stays_unsent remEnvC remC).2.1 rfl,
   (c9_failed_send_stays_unsent remEnvC remC).2.2.1 rfl,
   (c9_failed_send_stays_unsent remEnvC remC).2.2.2 rfl (by decide),
   ((c9_failed_send_stays_unsent remEnvC remC2).1 remC2._id rfl).2⟩

/-! ## C10 -/

/-- C10: every 201 registration response carries the activation JWT whose
signed payload holds both the 4-digit activation code (the same code that
was emailed) and the full registration object including the plaintext
password; since a JWT payload is only base64-encoded, the HTTP caller can
derive the emailed secret code from the response body alone. -/
theorem c10_activation_token_leak (env : RegisterEnv)
    (name email password : Option String) (msg : String) (tok : Jwt)
    (h : (registerUser env name email password).outcome = .ok 201 ⟨msg, tok⟩) :
    ∃ n e p, name = some n ∧ email = some e ∧ password = some p
      ∧ tok.payload = .activation ⟨n, e, p⟩ (toString (env.rand % 9000 + 1000))
      ∧ (registerUser env name email password).emailsSent
          = [⟨"activateEmail.ejs", e, "Account Activation", n,
              toString (env.rand % 9000 + 1000)⟩]
      ∧ 1000 ≤ env.rand % 9000 + 1000 ∧ env.rand % 9000 + 1000 ≤ 9999 := by
  have hcode : env.rand % 9000 + 1000 ≤ 9999 := by
    have := Nat.mod_lt env.rand (show 0 < 9000 by norm_num)
    omega
  by_cases hfls : (strFalsy name || strFalsy email || strFalsy password) = true
  · exfalso
    have hreg : registerUser env name email password
        = ⟨.err 400 "Please enter all fields", []⟩ := by
      simp [registerUser, hfls]
    rw [hreg] at h
    exact Outcome.noConfusion h
  · rw [Bool.not_eq_true] at hfls
    have hparts : strFalsy name = false ∧ strFalsy email = false
        ∧ strFalsy password = false := by
      rcases hn : strFalsy name <;> rcases he : strFalsy email <;>
        rcases hp : strFalsy password <;> simp_all
    rcases name with _ | n
    · exact absurd hparts.1 (by simp [strFalsy])
    rcases email with _ | e
    · exact absurd hparts.2.1 (by simp [strFalsy])
    rcases password with _ | p
    · exact absurd hparts.2.2 (by simp [strFalsy])
    by_cases h1 : env.isEmail e = true
    · by_cases h2 : isStrongPassword p = true
      · by_cases h3 : (findOneByEmail env.db e).isSome = true
        · exfalso
          have hreg : registerUser env (some n) (some e) (some p)
              = ⟨.err 400 "Email already exists", []⟩ := by
            simp [registerUser, hfls, h1, h2, h3]
          rw [hreg] at h
          exact Outcome.noConfusion h
        · rw [Bool.not_eq_true] at h3
          by_cases h4 : env.mailOk = true
          · have hreg : registerUser env (some n) (some e) (some p)
                = ⟨.ok 201 ⟨"Activation code sent to " ++ e,
                    (createActivationToken ⟨n, e, p⟩ env.rand env.activationSecret env.now).token⟩,
                   [⟨"activateEmail.ejs", e, "Account Activation", n,
                     (createActivationToken ⟨n, e, p⟩ env.rand env.activationSecret env.now).activationCode⟩]⟩ := by
              simp [registerUser, hfls, h1, h2, h3, h4, createActivationToken]
            rw [hreg] at h
            simp only [Outcome.ok.injEq, RegisterBody.mk.injEq] at h
            refine ⟨n, e, p, rfl, rfl, rfl, ?_, ?_, by omega, hcode⟩
            · rw [← h.2.2]
              rfl
            · rw [hreg]
              rfl
          · rw [Bool.not_eq_true] at h4
            exfalso
            have hreg : registerUser env (some n) (some e) (some p)
                = ⟨.err 500 env.mailErr, []⟩ := by
              simp [registerUser, hfls, h1, h2, h3, h4]
            rw [hreg] at h
            exact Outcome.noConfusion h
      · rw [Bool.not_eq_true] at h2
        exfalso
        have hreg : registerUser env (some n) (some e) (some p)
            = ⟨.err 400 pwWeakMsg, []⟩ := by
          simp [registerUser, hfls, h1, h2]
        rw [hreg] at h
        exact Outcome.noConfusion h
    · rw [Bool.not_eq_true] at h1
      exfalso
      have hreg : registerUser env (some n) (some e) (some p)
          = ⟨.err 400 "Invalid Email", []⟩ := by
        simp [registerUser, hfls, h1]
      rw [hreg] at h
      exact Outcome.noConfusion h

/-- C10 witness: the concrete 201 response of `regEnvC` leaks the full
registration object with the plaintext password and the emailed 4-digit
code (`42 % 9000 + 1000 = 1042`) through the activation token's payload. -/
theorem c10_activation_token_leak_witness :
    ∃ n e p,
      (some "Sam" : Option String) = some n
      ∧ (some "sam@mail.com" : Option String) = some e
      ∧ (some "Password1!" : Option String) = some p
      ∧ ((createActivationToken ⟨"Sam", "sam@mail.com", "Password1!"⟩ 42 "asec" 5).token).payload
          = .activation ⟨n, e, p⟩ (toString (regEnvC.rand % 9000 + 1000))
      ∧ (registerUser regEnvC (some "Sam") (some "sam@mail.com") (some "Password1!")).emailsSent
          = [⟨"activateEmail.ejs", e, "Account Activation", n,
              toString (regEnvC.rand % 9000 + 1000)⟩]
      ∧ 1000 ≤ regEnvC.rand % 9000 + 1000 ∧ regEnvC.rand % 9000 + 1000 ≤ 9999 :=
  c10_activation_token_leak regEnvC (some "Sam") (some "sam@mail.com") (some "Password1!")
    "Activation code sent to sam@mail.com"
    (createActivationToken ⟨"Sam", "sam@mail.com", "Password1!"⟩ 42 "asec" 5).token rfl
